import Mathlib

/-
Verification development for the chatapp-thread-frontend repository.

The repository has two source files:
  - src/components/layout/navbar.tsx : a navigation bar holding the
    unread-notification count reconciler (an authoritative seed fetch in a
    React effect keyed on the session userId, plus a socket subscription to
    the notification:new push event keyed on the socket instance).
  - src/app/profile/page.tsx : a profile editor form (zod schema with
    trim / empty-to-absent transforms, and a PATCH payload builder).

The definitions below are a shallow embedding of that code: the React
effects become explicit state transitions on a component state record, the
two async completions (seed fetch resolution, push event delivery) become
events of a step function, and the pure helpers (toast text, zod
transforms, payload construction) become Lean functions, translated
clause by clause from the TypeScript.
-/

namespace Chatapp

/-- Shape of the actor field of a push notification: the handle is optional
(`actor: { handle: optional string }`). -/
structure Actor where
  handle : Option String
deriving DecidableEq

/-- Shape of a notification as consumed by the navbar: a type string and an
actor. Only these two fields are read by the code under verification. -/
structure Notification where
  type : String
  actor : Actor
deriving DecidableEq

/-- Toast description computed by handleNewNotification in navbar.tsx:
`payload.type === "REPLY_ON_THREAD" ? (payload.actor.handle ?? "Someone") +
" commented to your thread" : (payload.actor.handle ?? "Someone") +
" liked your thread"`. -/
def toastDescription (payload : Notification) : String :=
  if payload.type = "REPLY_ON_THREAD" then
    (payload.actor.handle.getD "Someone") ++ " commented to your thread"
  else
    (payload.actor.handle.getD "Someone") ++ " liked your thread"

/-- The shared notification-count store (useNotificationCount) together with
the stream of toasts emitted so far, each toast a (title, description)
pair. -/
structure CountStore where
  unreadCount : Nat
  toasts : List (String × String)
deriving DecidableEq

/-- The push-event handler of navbar.tsx: `incrementUnread()` followed by
`toast("New Notification", { description: ... })`. -/
def handleNewNotification (payload : Notification) (st : CountStore) : CountStore :=
  { unreadCount := st.unreadCount + 1
    toasts := st.toasts ++ [("New Notification", toastDescription payload)] }

/-- An in-flight authoritative seed fetch. flagIdx names the isMounted flag
cell created by the effect run that issued this fetch; forUser is the
session the fetch was issued for. -/
structure PendingSeed where
  flagIdx : Nat
  forUser : String
deriving DecidableEq

/-- State of the Navbar component and its collaborators, as far as the
reconciler is concerned: the session identity read from the auth provider,
the socket instance (identified by a number, none while absent), the shared
count store, the isMounted flag cells created by runs of the seed effect,
the in-flight seed fetches, the number of live notification:new listeners,
whether the socket effect registered a cleanup, the running totals of
socket.on / socket.off calls, and the console log lines. -/
structure ReconcilerState where
  mounted : Bool
  userId : Option String
  socket : Option Nat
  store : CountStore
  mountFlags : List Bool
  pendingSeeds : List PendingSeed
  listeners : Nat
  socketCleanup : Bool
  subCount : Nat
  unsubCount : Nat
  logs : List String
deriving DecidableEq

/-- The body of the seed effect in navbar.tsx (lines 158-184), up to its
first await. It declares `let isMounted = true` (a fresh flag cell; the
effect returns no cleanup function, so nothing in the program ever sets
this cell back to false), then calls loadUnreadNotifications: when userId
is absent it runs `if (isMounted) setUnreadCount(0); return;` — the flag
was just created true, so the guard passes — and when userId is present it
starts the fetch, recorded here as a pending seed carrying the flag
cell. -/
def runSeedEffect (s : ReconcilerState) : ReconcilerState :=
  let idx := s.mountFlags.length
  let s1 := { s with mountFlags := s.mountFlags ++ [true] }
  match s1.userId with
  | none => { s1 with store := { s1.store with unreadCount := 0 } }
  | some u => { s1 with pendingSeeds := s1.pendingSeeds ++ [⟨idx, u⟩] }

/-- Resolution of the i-th in-flight seed fetch. result = some k models the
fetch succeeding with a collection of length k; none models a network
error or non-2xx status (apiGet throwing). The continuation after the
await re-reads the isMounted flag of its own effect run: on success it
runs `if (!isMounted) return; console.log(data); setUnreadCount(data.length)`
and on failure `if (!isMounted) return; console.log("Error ocuured")`.
The console.log of the data array is recorded as the string of its
length. -/
def resolveSeed (s : ReconcilerState) (i : Nat) (result : Option Nat) : ReconcilerState :=
  match s.pendingSeeds.get? i with
  | none => s
  | some p =>
    let s1 := { s with pendingSeeds := s.pendingSeeds.eraseIdx i }
    let isMounted := s1.mountFlags.getD p.flagIdx false
    match result with
    | some k =>
      if isMounted then
        { s1 with logs := s1.logs ++ [toString k]
                  store := { s1.store with unreadCount := k } }
      else s1
    | none =>
      if isMounted then { s1 with logs := s1.logs ++ ["Error ocuured"] } else s1

/-- Cleanup registered by the socket effect (lines 186-207): when the
effect run had a socket it returned `() => socket.off("notification:new",
handleNewNotification)`, which removes the one listener that run attached;
when the socket was absent the effect returned early and registered no
cleanup. -/
def cleanupSocketEffect (s : ReconcilerState) : ReconcilerState :=
  if s.socketCleanup then
    { s with listeners := s.listeners - 1
             unsubCount := s.unsubCount + 1
             socketCleanup := false }
  else s

/-- The body of the socket effect: `if (!socket) return;` else
`socket.on("notification:new", handleNewNotification)` and register the
cleanup. -/
def runSocketEffect (s : ReconcilerState) : ReconcilerState :=
  match s.socket with
  | none => s
  | some _ =>
    { s with listeners := s.listeners + 1
             subCount := s.subCount + 1
             socketCleanup := true }

/-- Events the component reacts to. sessionChange uid: the auth provider
reports a (different) session identity, so React re-runs the seed effect
(which is keyed on [userId]); its previous run registered no cleanup.
seedResolve i r: the i-th in-flight fetch settles. socketChange s: the
socket instance changes, so React runs the cleanup of the previous socket
effect run and then re-runs it (the effect is keyed on [socket,
incrementUnread]; it is NOT keyed on userId). push payload: the socket
delivers a notification:new event to every attached listener. unmount:
the component is torn down and React runs all registered cleanups. -/
inductive Event where
  | sessionChange (uid : Option String)
  | seedResolve (i : Nat) (result : Option Nat)
  | socketChange (sock : Option Nat)
  | push (payload : Notification)
  | unmount
deriving DecidableEq

/-- Deliver a push event to n attached listeners: each runs
handleNewNotification once. -/
def applyListeners (payload : Notification) : Nat → CountStore → CountStore
  | 0, st => st
  | n + 1, st => applyListeners payload n (handleNewNotification payload st)

/-- One step of the component. Effect re-runs only happen while mounted and
only when the watched dependency actually changed (React memoises on the
dependency array); promise continuations (seedResolve) run regardless of
mount state, consulting only their captured flag cell. -/
def step (s : ReconcilerState) (e : Event) : ReconcilerState :=
  match e with
  | .sessionChange uid =>
    if s.mounted ∧ uid ≠ s.userId then
      runSeedEffect { s with userId := uid }
    else s
  | .seedResolve i r => resolveSeed s i r
  | .socketChange sock =>
    if s.mounted ∧ sock ≠ s.socket then
      runSocketEffect { (cleanupSocketEffect s) with socket := sock }
    else s
  | .push payload =>
    { s with store := applyListeners payload s.listeners s.store }
  | .unmount =>
    if s.mounted then { (cleanupSocketEffect s) with mounted := false } else s

/-- Freshly mounted component before any effect has observed a session or a
socket: signed out, no socket, count 0. -/
def initState : ReconcilerState :=
  { mounted := true
    userId := none
    socket := none
    store := { unreadCount := 0, toasts := [] }
    mountFlags := []
    pendingSeeds := []
    listeners := 0
    socketCleanup := false
    subCount := 0
    unsubCount := 0
    logs := [] }

/-- Run a sequence of events from a state. -/
def run (s : ReconcilerState) (es : List Event) : ReconcilerState :=
  es.foldl step s

/-- States reachable from the freshly mounted component. -/
inductive Reachable : ReconcilerState → Prop
  | init : Reachable initState
  | step {s : ReconcilerState} (e : Event) : Reachable s → Reachable (step s e)

/-- Raw values of the four profile form inputs, each a string (react-hook-
form registers them with string default values). -/
structure ProfileFormRaw where
  displayName : String
  handle : String
  bio : String
  avatarUrl : String
deriving DecidableEq

/-- Values after zod validation: each field is a string or absent
(ProfileFormValues = z.infer of ProfileSchema, so string | undefined per
field). -/
structure ProfileFormValues where
  displayName : Option String
  handle : Option String
  bio : Option String
  avatarUrl : Option String
deriving DecidableEq

/-- JavaScript String.prototype.trim as used by the zod transform: strip
leading and trailing whitespace characters. -/
def jsTrim (s : String) : String :=
  ⟨((s.data.dropWhile Char.isWhitespace).reverse.dropWhile Char.isWhitespace).reverse⟩

/-- JavaScript String.prototype.toLowerCase as used on the handle field:
lower-case every character. -/
def jsToLower (s : String) : String :=
  ⟨s.data.map Char.toLower⟩

/-- The optionalText zod schema of profile/page.tsx: transform by trim,
then map the empty string to absent, and accept absence. -/
def optionalText (value : String) : Option String :=
  let t := jsTrim value
  if t = "" then none else some t

/-- The ProfileSchema zod object applied to the raw form values: each of
the four fields goes through optionalText. -/
def ProfileSchema (raw : ProfileFormRaw) : ProfileFormValues :=
  { displayName := optionalText raw.displayName
    handle := optionalText raw.handle
    bio := optionalText raw.bio
    avatarUrl := optionalText raw.avatarUrl }

/-- One conditional assignment of onSubmit, `if (values.f) payload.f = t(values.f)`:
the field contributes a (key, transformed value) entry exactly when its
value is truthy (present and not the empty string). -/
def fieldEntry (key : String) (transform : String → String) : Option String → List (String × String)
  | none => []
  | some v => if v = "" then [] else [(key, transform v)]

/-- The PATCH /api/me payload built by onSubmit in profile/page.tsx (lines
71-79): one conditional entry per field, in source order, with the handle
lower-cased (`payload.handle = values.handle.toLowerCase()`) and the other
three passed through unchanged. -/
def onSubmitPayload (values : ProfileFormValues) : List (String × String) :=
  fieldEntry "displayName" id values.displayName
    ++ fieldEntry "handle" jsToLower values.handle
    ++ fieldEntry "bio" id values.bio
    ++ fieldEntry "avatarUrl" id values.avatarUrl

/-- The UserResponse record returned by the /api/me endpoints, as typed in
profile/page.tsx (string fields nullable). -/
structure UserResponse where
  id : Int
  clerkUserId : String
  displayName : Option String
  email : Option String
  handle : Option String
  avatarUrl : Option String
  bio : Option String
deriving DecidableEq

/-- Profile page state the submission path touches: the current form values
(what form.reset sets) and the toasts emitted so far. The isSaving flag is
set and cleared around the await and does not affect these. -/
structure ProfileUiState where
  formValues : ProfileFormRaw
  toasts : List (String × String)
deriving DecidableEq

/-- Completion of onSubmit after the PATCH settles. some resp: the success
path runs form.reset with the response fields (?? "") and
toast.success("Profile updated successfully", { description: "your changes
have been saved" }). none: the PATCH threw; the catch block is
`catch (error) {}` — empty — so nothing is reset and nothing is toasted. -/
def onSubmitComplete (s : ProfileUiState) (result : Option UserResponse) : ProfileUiState :=
  match result with
  | some resp =>
    { formValues :=
        { displayName := resp.displayName.getD ""
          handle := resp.handle.getD ""
          bio := resp.bio.getD ""
          avatarUrl := resp.avatarUrl.getD "" }
      toasts := s.toasts ++ [("Profile updated successfully", "your changes have been saved")] }
  | none => s

/-
Helper lemmas about the reconciler step function.
-/

lemma runSeedEffect_proj (s : ReconcilerState) :
    (runSeedEffect s).listeners = s.listeners
    ∧ (runSeedEffect s).socketCleanup = s.socketCleanup
    ∧ (runSeedEffect s).mounted = s.mounted := by
  unfold runSeedEffect
  cases s with
  | mk m u sock st mf ps l sc c1 c2 lg =>
    cases u <;> exact ⟨rfl, rfl, rfl⟩

lemma resolveSeed_proj (s : ReconcilerState) (i : Nat) (r : Option Nat) :
    (resolveSeed s i r).listeners = s.listeners
    ∧ (resolveSeed s i r).socketCleanup = s.socketCleanup
    ∧ (resolveSeed s i r).mounted = s.mounted := by
  unfold resolveSeed
  split
  · exact ⟨rfl, rfl, rfl⟩
  · split
    · dsimp only
      split
      · exact ⟨rfl, rfl, rfl⟩
      · exact ⟨rfl, rfl, rfl⟩
    · dsimp only
      split
      · exact ⟨rfl, rfl, rfl⟩
      · exact ⟨rfl, rfl, rfl⟩

/-- Invariant tying the listener count to whether the socket effect
currently has a registered cleanup, and recording that an unmounted
component has no registered cleanup. -/
def ListenerInv (s : ReconcilerState) : Prop :=
  s.listeners = (if s.socketCleanup = true then 1 else 0)
    ∧ (s.mounted = false → s.socketCleanup = false)

lemma step_seedResolve (s : ReconcilerState) (i : Nat) (r : Option Nat) :
    step s (Event.seedResolve i r) = resolveSeed s i r := rfl

lemma step_push (s : ReconcilerState) (payload : Notification) :
    step s (Event.push payload)
      = { s with store := applyListeners payload s.listeners s.store } := rfl

lemma step_sessionChange_pos (s : ReconcilerState) (uid : Option String)
    (hc : s.mounted = true ∧ uid ≠ s.userId) :
    step s (Event.sessionChange uid) = runSeedEffect { s with userId := uid } := by
  simp only [step]
  rw [if_pos hc]

lemma step_sessionChange_neg (s : ReconcilerState) (uid : Option String)
    (hc : ¬(s.mounted = true ∧ uid ≠ s.userId)) :
    step s (Event.sessionChange uid) = s := by
  simp only [step]
  rw [if_neg hc]

lemma step_socketChange_pos (s : ReconcilerState) (sock : Option Nat)
    (hc : s.mounted = true ∧ sock ≠ s.socket) :
    step s (Event.socketChange sock)
      = runSocketEffect { (cleanupSocketEffect s) with socket := sock } := by
  simp only [step]
  rw [if_pos hc]

lemma step_socketChange_neg (s : ReconcilerState) (sock : Option Nat)
    (hc : ¬(s.mounted = true ∧ sock ≠ s.socket)) :
    step s (Event.socketChange sock) = s := by
  simp only [step]
  rw [if_neg hc]

lemma step_unmount_pos (s : ReconcilerState) (hc : s.mounted = true) :
    step s Event.unmount = { (cleanupSocketEffect s) with mounted := false } := by
  simp only [step]
  rw [if_pos hc]

lemma step_unmount_neg (s : ReconcilerState) (hc : ¬(s.mounted = true)) :
    step s Event.unmount = s := by
  simp only [step]
  rw [if_neg hc]

lemma cleanupSocketEffect_pos (s : ReconcilerState) (hsc : s.socketCleanup = true) :
    cleanupSocketEffect s
      = { s with listeners := s.listeners - 1
                 unsubCount := s.unsubCount + 1
                 socketCleanup := false } := by
  simp only [cleanupSocketEffect]
  rw [if_pos hsc]

lemma cleanupSocketEffect_neg (s : ReconcilerState) (hsc : ¬(s.socketCleanup = true)) :
    cleanupSocketEffect s = s := by
  simp only [cleanupSocketEffect]
  rw [if_neg hsc]

lemma listenerInv_step (s : ReconcilerState) (e : Event) (h : ListenerInv s) :
    ListenerInv (step s e) := by
  obtain ⟨h1, h2⟩ := h
  cases e with
  | sessionChange uid =>
    by_cases hc : s.mounted = true ∧ uid ≠ s.userId
    · rw [step_sessionChange_pos s uid hc]
      obtain ⟨p1, p2, p3⟩ := runSeedEffect_proj { s with userId := uid }
      refine ⟨?_, ?_⟩
      · rw [p1, p2]; exact h1
      · intro hm; rw [p3] at hm; rw [p2]; exact h2 hm
    · rw [step_sessionChange_neg s uid hc]; exact ⟨h1, h2⟩
  | seedResolve i r =>
    obtain ⟨p1, p2, p3⟩ := resolveSeed_proj s i r
    rw [step_seedResolve]
    refine ⟨?_, ?_⟩
    · rw [p1, p2]; exact h1
    · intro hm; rw [p3] at hm; rw [p2]; exact h2 hm
  | socketChange sock =>
    by_cases hc : s.mounted = true ∧ sock ≠ s.socket
    · rw [step_socketChange_pos s sock hc]
      by_cases hsc : s.socketCleanup = true
      · rw [cleanupSocketEffect_pos s hsc]
        cases sock with
        | none =>
          exact ⟨by simp [runSocketEffect, h1, hsc], fun _ => rfl⟩
        | some n =>
          refine ⟨by simp [runSocketEffect, h1, hsc], ?_⟩
          intro hm
          simp [runSocketEffect, hc.1] at hm
      · rw [cleanupSocketEffect_neg s hsc]
        cases sock with
        | none =>
          refine ⟨by simp [runSocketEffect, h1, hsc], ?_⟩
          intro hm
          show s.socketCleanup = false
          exact Bool.not_eq_true s.socketCleanup ▸ hsc
        | some n =>
          refine ⟨by simp [runSocketEffect, h1, hsc], ?_⟩
          intro hm
          simp [runSocketEffect, hc.1] at hm
    · rw [step_socketChange_neg s sock hc]; exact ⟨h1, h2⟩
  | push payload =>
    exact ⟨h1, h2⟩
  | unmount =>
    by_cases hm : s.mounted = true
    · rw [step_unmount_pos s hm]
      by_cases hsc : s.socketCleanup = true
      · rw [cleanupSocketEffect_pos s hsc]
        exact ⟨by simp [h1, hsc], fun _ => rfl⟩
      · rw [cleanupSocketEffect_neg s hsc]
        refine ⟨by simp [h1, hsc], ?_⟩
        intro _
        show s.socketCleanup = false
        exact Bool.not_eq_true s.socketCleanup ▸ hsc
    · rw [step_unmount_neg s hm]; exact ⟨h1, h2⟩

lemma reachable_listenerInv {s : ReconcilerState} (h : Reachable s) : ListenerInv s := by
  induction h with
  | init => exact ⟨rfl, fun _ => rfl⟩
  | step e _ ih => exact listenerInv_step _ e ih

/-- Concrete reachable state: the component just after a session u1 was
established and the seed effect ran, so one seed fetch is in flight. -/
def seededU1 : ReconcilerState :=
  run initState [Event.sessionChange (some "u1")]

/-- Concrete reachable state: session u1 seeded with 3 unread
notifications, a socket connected and subscribed, then sign-out — the
count was reset to 0 but the notification listener is still attached. -/
def signedOutWithListener : ReconcilerState :=
  run initState
    [Event.sessionChange (some "u1"), Event.seedResolve 0 (some 3),
     Event.socketChange (some 0), Event.sessionChange none]

/-
Helper lemmas about the profile form pipeline.
-/

lemma mem_fieldEntry_iff {kv : String × String} {key : String} {f : String → String}
    {o : Option String} :
    kv ∈ fieldEntry key f o ↔ ∃ v, o = some v ∧ v ≠ "" ∧ kv = (key, f v) := by
  cases o with
  | none => simp [fieldEntry]
  | some v =>
    by_cases hv : v = ""
    · simp [fieldEntry, hv]
    · simp only [fieldEntry, if_neg hv, List.mem_singleton]
      constructor
      · intro h
        exact ⟨v, rfl, hv, h⟩
      · rintro ⟨w, hw, _, h⟩
        rw [← Option.some.inj hw] at h
        exact h

lemma mem_onSubmitPayload {kv : String × String} {values : ProfileFormValues} :
    kv ∈ onSubmitPayload values ↔
      (∃ v, values.displayName = some v ∧ v ≠ "" ∧ kv = ("displayName", v))
      ∨ (∃ v, values.handle = some v ∧ v ≠ "" ∧ kv = ("handle", jsToLower v))
      ∨ (∃ v, values.bio = some v ∧ v ≠ "" ∧ kv = ("bio", v))
      ∨ (∃ v, values.avatarUrl = some v ∧ v ≠ "" ∧ kv = ("avatarUrl", v)) := by
  simp [onSubmitPayload, List.mem_append, mem_fieldEntry_iff, id]

lemma mem_payload_cases {raw : ProfileFormRaw} {kv : String × String}
    (h : kv ∈ onSubmitPayload (ProfileSchema raw)) :
    (∃ v, optionalText raw.displayName = some v ∧ v ≠ "" ∧ kv = ("displayName", v))
    ∨ (∃ v, optionalText raw.handle = some v ∧ v ≠ "" ∧ kv = ("handle", jsToLower v))
    ∨ (∃ v, optionalText raw.bio = some v ∧ v ≠ "" ∧ kv = ("bio", v))
    ∨ (∃ v, optionalText raw.avatarUrl = some v ∧ v ≠ "" ∧ kv = ("avatarUrl", v)) :=
  mem_onSubmitPayload.mp h

lemma optionalText_eq_none_iff (s : String) : optionalText s = none ↔ jsTrim s = "" := by
  unfold optionalText
  by_cases h : jsTrim s = "" <;> simp [h]

lemma optionalText_eq_some {s v : String} (h : optionalText s = some v) :
    v = jsTrim s ∧ v ≠ "" := by
  unfold optionalText at h
  by_cases ht : jsTrim s = ""
  · rw [if_pos ht] at h
    exact Option.noConfusion h
  · rw [if_neg ht] at h
    have hv := Option.some.inj h
    exact ⟨hv.symm, hv ▸ ht⟩

lemma jsToLower_ne_empty {v : String} (h : v ≠ "") : jsToLower v ≠ "" := by
  intro hc
  apply h
  cases v with
  | mk l =>
    cases l with
    | nil => rfl
    | cons c cs =>
      have hd := congrArg String.data hc
      simp [jsToLower] at hd

lemma no_displayName_entry {raw : ProfileFormRaw} {v : String}
    (h : optionalText raw.displayName = none) :
    ("displayName", v) ∉ onSubmitPayload (ProfileSchema raw) := by
  intro hm
  rcases mem_payload_cases hm with ⟨w, hw, _, _⟩ | ⟨w, _, _, heq⟩ | ⟨w, _, _, heq⟩ | ⟨w, _, _, heq⟩
  · rw [h] at hw
    exact Option.noConfusion hw
  · simp at heq
  · simp at heq
  · simp at heq

lemma no_handle_entry {raw : ProfileFormRaw} {v : String}
    (h : optionalText raw.handle = none) :
    ("handle", v) ∉ onSubmitPayload (ProfileSchema raw) := by
  intro hm
  rcases mem_payload_cases hm with ⟨w, _, _, heq⟩ | ⟨w, hw, _, _⟩ | ⟨w, _, _, heq⟩ | ⟨w, _, _, heq⟩
  · simp at heq
  · rw [h] at hw
    exact Option.noConfusion hw
  · simp at heq
  · simp at heq

lemma no_bio_entry {raw : ProfileFormRaw} {v : String}
    (h : optionalText raw.bio = none) :
    ("bio", v) ∉ onSubmitPayload (ProfileSchema raw) := by
  intro hm
  rcases mem_payload_cases hm with ⟨w, _, _, heq⟩ | ⟨w, _, _, heq⟩ | ⟨w, hw, _, _⟩ | ⟨w, _, _, heq⟩
  · simp at heq
  · simp at heq
  · rw [h] at hw
    exact Option.noConfusion hw
  · simp at heq

lemma no_avatarUrl_entry {raw : ProfileFormRaw} {v : String}
    (h : optionalText raw.avatarUrl = none) :
    ("avatarUrl", v) ∉ onSubmitPayload (ProfileSchema raw) := by
  intro hm
  rcases mem_payload_cases hm with ⟨w, _, _, heq⟩ | ⟨w, _, _, heq⟩ | ⟨w, _, _, heq⟩ | ⟨w, hw, _, _⟩
  · simp at heq
  · simp at heq
  · simp at heq
  · rw [h] at hw
    exact Option.noConfusion hw

/-
Claim theorems.
-/

/-- C1: the claim says a seed response for session S1 resolving after a
seed for session S2 was issued is discarded by a staleness check, never
overwriting the count established for S2. The code violates this: the seed
effect declares the isMounted flag but returns no cleanup function, so the
flag is never cleared and the guard `if (!isMounted) return` never fires.
Concretely: seed for S1 issued, session changes to S2, the S2 seed
resolves with 5 notifications (count = 5), then the stale S1 response
resolves with 3 — and the code sets the count to 3. -/
theorem C1_stale_seed_result_applied :
    (run initState
      [Event.sessionChange (some "S1"), Event.sessionChange (some "S2"),
       Event.seedResolve 1 (some 5)]).store.unreadCount = 5
    ∧ (run initState
      [Event.sessionChange (some "S1"), Event.sessionChange (some "S2"),
       Event.seedResolve 1 (some 5), Event.seedResolve 0 (some 3)]).store.unreadCount = 3 := by
  decide

/-- C2: a seed invocation with the session identity absent sets
unreadCount to 0 and issues no fetch; with a session present, a successful
authoritative fetch of length k sets unreadCount to k regardless of the
prior value (the code applies the result whenever its isMounted flag is
true, which in particular covers every run after which no newer seed
request was issued). -/
theorem C2_seed_sets_count (s t : ReconcilerState)
    (hm : s.mounted = true) (hu : s.userId ≠ none)
    (i : Nat) (p : PendingSeed) (k : Nat)
    (hp : t.pendingSeeds.get? i = some p)
    (hf : t.mountFlags.getD p.flagIdx false = true) :
    (step s (Event.sessionChange none)).store.unreadCount = 0
    ∧ (step s (Event.sessionChange none)).pendingSeeds = s.pendingSeeds
    ∧ (step t (Event.seedResolve i (some k))).store.unreadCount = k := by
  rw [step_sessionChange_pos s none ⟨hm, Ne.symm hu⟩]
  refine ⟨rfl, rfl, ?_⟩
  rw [step_seedResolve]
  have hp2 : t.pendingSeeds[i]? = some p := by simpa using hp
  have hf2 : t.mountFlags[p.flagIdx]?.getD false = true := by simpa [List.getD] using hf
  simp [resolveSeed, hp2, hf2]

/-- Witness for C2 at the concrete seeded state: session u1 present, one
fetch in flight, resolving with 7 notifications sets the count to 7; a
sign-out seed run resets the count to 0 without touching the in-flight
fetch list. -/
theorem C2_seed_sets_count_witness :
    (seededU1.mounted = true
     ∧ seededU1.userId ≠ none
     ∧ seededU1.pendingSeeds.get? 0 = some ⟨0, "u1"⟩
     ∧ seededU1.mountFlags.getD 0 false = true)
    ∧ ((step seededU1 (Event.sessionChange none)).store.unreadCount = 0
       ∧ (step seededU1 (Event.sessionChange none)).pendingSeeds = seededU1.pendingSeeds
       ∧ (step seededU1 (Event.seedResolve 0 (some 7))).store.unreadCount = 7) := by
  refine ⟨⟨by decide, by decide, by decide, by decide⟩, ?_⟩
  exact C2_seed_sets_count seededU1 seededU1 (by decide) (by decide) 0 ⟨0, "u1"⟩ 7
    (by decide) (by decide)

/-- C3: every push event increments unreadCount by exactly 1 and emits
exactly one toast whose description is derived from the notification type
and the actor handle, with "Someone" substituted when the handle is
absent; in particular handle "jay" with type REPLY_ON_THREAD yields
"jay commented to your thread" and an absent handle with type
LIKE_ON_THREAD yields "Someone liked your thread". -/
theorem C3_push_increments_and_toasts (payload : Notification) (st : CountStore) :
    (handleNewNotification payload st).unreadCount = st.unreadCount + 1
    ∧ (handleNewNotification payload st).toasts
        = st.toasts ++ [("New Notification", toastDescription payload)]
    ∧ toastDescription ⟨"REPLY_ON_THREAD", ⟨some "jay"⟩⟩ = "jay commented to your thread"
    ∧ toastDescription ⟨"LIKE_ON_THREAD", ⟨none⟩⟩ = "Someone liked your thread"
    ∧ (∀ ty : String, toastDescription ⟨ty, ⟨none⟩⟩
        = "Someone" ++ (if ty = "REPLY_ON_THREAD"
            then " commented to your thread" else " liked your thread")) := by
  refine ⟨rfl, rfl, by decide, by decide, ?_⟩
  intro ty
  by_cases ht : ty = "REPLY_ON_THREAD"
  · simp [toastDescription, ht]
  · simp [toastDescription, ht]

/-- C4 counterexample: the claim says a push event delivered after
sign-out must not increment the cleared count, but the push handler has no
session guard and the socket subscription is not keyed on the session.
Concretely: seed session u1 with 3 unread, connect the socket, sign out
(count resets to 0), then one notification:new delivery — the count
becomes 1, not 0. -/
theorem C4_push_after_signout_increments_cex :
    signedOutWithListener.userId = none
    ∧ signedOutWithListener.store.unreadCount = 0
    ∧ (step signedOutWithListener
        (Event.push ⟨"LIKE_ON_THREAD", ⟨none⟩⟩)).store.unreadCount = 1 := by
  decide

/-- C4 amended: whenever the session identity becomes absent the seed run
resets unreadCount to 0; however a push event delivered afterwards, while
the notification listener is still attached, increments the cleared count
— the handler does not consult the session, so post-sign-out deliveries
are counted. -/
theorem C4_signout_resets_count (s t : ReconcilerState)
    (hm : s.mounted = true) (hu : s.userId ≠ none)
    (hl : t.listeners = 1) (payload : Notification) :
    (step s (Event.sessionChange none)).store.unreadCount = 0
    ∧ (step t (Event.push payload)).store.unreadCount = t.store.unreadCount + 1 := by
  rw [step_sessionChange_pos s none ⟨hm, Ne.symm hu⟩]
  refine ⟨rfl, ?_⟩
  rw [step_push, hl]
  simp [applyListeners, handleNewNotification]

/-- Witness for C4 at the concrete states: the seeded session u1 state for
the reset conjunct, and the post-sign-out state with a live listener for
the increment conjunct. -/
theorem C4_signout_resets_count_witness :
    (seededU1.mounted = true ∧ seededU1.userId ≠ none
     ∧ signedOutWithListener.listeners = 1)
    ∧ ((step seededU1 (Event.sessionChange none)).store.unreadCount = 0
       ∧ (step signedOutWithListener
            (Event.push ⟨"LIKE_ON_THREAD", ⟨none⟩⟩)).store.unreadCount
          = signedOutWithListener.store.unreadCount + 1) := by
  refine ⟨⟨by decide, by decide, by decide⟩, ?_⟩
  exact C4_signout_resets_count seededU1 signedOutWithListener (by decide) (by decide)
    (by decide) ⟨"LIKE_ON_THREAD", ⟨none⟩⟩

/-- C5: when a seed fetch fails, the count retains its previous value, one
line is written to the console log ("Error ocuured"), and no toast is
emitted. -/
theorem C5_seed_failure_best_effort (t : ReconcilerState)
    (i : Nat) (p : PendingSeed)
    (hp : t.pendingSeeds.get? i = some p)
    (hf : t.mountFlags.getD p.flagIdx false = true) :
    (step t (Event.seedResolve i none)).store.unreadCount = t.store.unreadCount
    ∧ (step t (Event.seedResolve i none)).logs = t.logs ++ ["Error ocuured"]
    ∧ (step t (Event.seedResolve i none)).store.toasts = t.store.toasts := by
  rw [step_seedResolve]
  have hp2 : t.pendingSeeds[i]? = some p := by simpa using hp
  have hf2 : t.mountFlags[p.flagIdx]?.getD false = true := by simpa [List.getD] using hf
  simp [resolveSeed, hp2, hf2]

/-- Witness for C5 at the concrete seeded state: the in-flight fetch for
session u1 fails; the count keeps its value, the failure is logged, no
toast appears. -/
theorem C5_seed_failure_best_effort_witness :
    (seededU1.pendingSeeds.get? 0 = some ⟨0, "u1"⟩
     ∧ seededU1.mountFlags.getD 0 false = true)
    ∧ ((step seededU1 (Event.seedResolve 0 none)).store.unreadCount
          = seededU1.store.unreadCount
       ∧ (step seededU1 (Event.seedResolve 0 none)).logs
          = seededU1.logs ++ ["Error ocuured"]
       ∧ (step seededU1 (Event.seedResolve 0 none)).store.toasts
          = seededU1.store.toasts) := by
  refine ⟨⟨by decide, by decide⟩, ?_⟩
  exact C5_seed_failure_best_effort seededU1 0 ⟨0, "u1"⟩ (by decide) (by decide)

/-- C6 counterexample: the claim says the notification:new subscription is
removed when the session changes. The socket effect is keyed on [socket,
incrementUnread], not on the session: after subscribing under session S1
and then changing the session to S2 (socket unchanged), no socket.off call
has happened and the listener attached under S1 is still live. -/
theorem C6_listener_kept_on_session_change_cex :
    (run initState
      [Event.sessionChange (some "S1"), Event.socketChange (some 0),
       Event.sessionChange (some "S2")]).unsubCount = 0
    ∧ (run initState
      [Event.sessionChange (some "S1"), Event.socketChange (some 0),
       Event.sessionChange (some "S2")]).listeners = 1
    ∧ (run initState
      [Event.sessionChange (some "S1"), Event.socketChange (some 0),
       Event.sessionChange (some "S2")]).userId = some "S2" := by
  decide

/-- C6 amended: no reachable state of the component has two live
notification:new listeners (so a push event never double-increments), and
the one listener is removed on component teardown and replaced, never
duplicated, when the socket changes; it is NOT removed on a mere session
change. -/
theorem C6_at_most_one_listener (s : ReconcilerState) (h : Reachable s) :
    s.listeners ≤ 1
    ∧ (step s Event.unmount).listeners = 0
    ∧ (∀ sock, (step s (Event.socketChange sock)).listeners ≤ 1) := by
  obtain ⟨h1, h2⟩ := reachable_listenerInv h
  refine ⟨?_, ?_, ?_⟩
  · rw [h1]
    split <;> omega
  · by_cases hm : s.mounted = true
    · rw [step_unmount_pos s hm]
      by_cases hsc : s.socketCleanup = true
      · rw [cleanupSocketEffect_pos s hsc]
        show s.listeners - 1 = 0
        rw [h1, if_pos hsc]
      · rw [cleanupSocketEffect_neg s hsc]
        show s.listeners = 0
        rw [h1]
        simp [hsc]
    · rw [step_unmount_neg s hm]
      have hz : s.socketCleanup = false := h2 (Bool.not_eq_true s.mounted ▸ hm)
      rw [h1, hz]
      simp
  · intro sock
    have hn := listenerInv_step s (Event.socketChange sock) ⟨h1, h2⟩
    rw [hn.1]
    split <;> omega

/-- Witness for C6 at the concrete initial state (reachable by
definition). -/
theorem C6_at_most_one_listener_witness :
    Reachable initState
    ∧ (initState.listeners ≤ 1
       ∧ (step initState Event.unmount).listeners = 0
       ∧ (step initState (Event.socketChange (some 0))).listeners ≤ 1) :=
  ⟨Reachable.init,
   (C6_at_most_one_listener initState Reachable.init).1,
   (C6_at_most_one_listener initState Reachable.init).2.1,
   (C6_at_most_one_listener initState Reachable.init).2.2 (some 0)⟩

/-- C7: the PATCH /api/me payload is a partial record over displayName,
handle, bio and avatarUrl; no entry carries an empty-string value; a field
whose form value is empty is absent from the payload; and the handle
entry, when present, is the lower-cased (trimmed) form value. -/
theorem C7_patch_payload_shape (raw : ProfileFormRaw) :
    (∀ kv ∈ onSubmitPayload (ProfileSchema raw),
        kv.1 = "displayName" ∨ kv.1 = "handle" ∨ kv.1 = "bio" ∨ kv.1 = "avatarUrl")
    ∧ (∀ kv ∈ onSubmitPayload (ProfileSchema raw), kv.2 ≠ "")
    ∧ (raw.displayName = "" →
        ∀ v, ("displayName", v) ∉ onSubmitPayload (ProfileSchema raw))
    ∧ (raw.handle = "" → ∀ v, ("handle", v) ∉ onSubmitPayload (ProfileSchema raw))
    ∧ (raw.bio = "" → ∀ v, ("bio", v) ∉ onSubmitPayload (ProfileSchema raw))
    ∧ (raw.avatarUrl = "" →
        ∀ v, ("avatarUrl", v) ∉ onSubmitPayload (ProfileSchema raw))
    ∧ (∀ v, ("handle", v) ∈ onSubmitPayload (ProfileSchema raw) →
        v = jsToLower (jsTrim raw.handle)) := by
  refine ⟨?_, ?_, ?_, ?_, ?_, ?_, ?_⟩
  · intro kv hkv
    rcases mem_payload_cases hkv with ⟨w, _, _, rfl⟩ | ⟨w, _, _, rfl⟩ | ⟨w, _, _, rfl⟩ | ⟨w, _, _, rfl⟩
    · exact Or.inl rfl
    · exact Or.inr (Or.inl rfl)
    · exact Or.inr (Or.inr (Or.inl rfl))
    · exact Or.inr (Or.inr (Or.inr rfl))
  · intro kv hkv
    rcases mem_payload_cases hkv with ⟨w, _, hne, rfl⟩ | ⟨w, _, hne, rfl⟩ | ⟨w, _, hne, rfl⟩ | ⟨w, _, hne, rfl⟩
    · exact hne
    · exact jsToLower_ne_empty hne
    · exact hne
    · exact hne
  · intro h v
    apply no_displayName_entry
    rw [h]
    decide
  · intro h v
    apply no_handle_entry
    rw [h]
    decide
  · intro h v
    apply no_bio_entry
    rw [h]
    decide
  · intro h v
    apply no_avatarUrl_entry
    rw [h]
    decide
  · intro v hv
    rcases mem_payload_cases hv with ⟨w, _, _, heq⟩ | ⟨w, hw, _, heq⟩ | ⟨w, _, _, heq⟩ | ⟨w, _, _, heq⟩
    · simp at heq
    · have hw2 := (optionalText_eq_some hw).1
      have hv2 : v = jsToLower w := congrArg Prod.snd heq
      rw [hv2, hw2]
    · simp at heq
    · simp at heq

/-- Witness for C7 at the concrete raw form (displayName " Dev ", handle
"JayDev", empty bio, whitespace avatarUrl): the bio entry is absent and
the handle entry is the lower-cased trimmed input. -/
theorem C7_patch_payload_shape_witness :
    (⟨" Dev ", "JayDev", "", "  "⟩ : ProfileFormRaw).bio = ""
    ∧ ("bio", "anything") ∉ onSubmitPayload (ProfileSchema ⟨" Dev ", "JayDev", "", "  "⟩)
    ∧ ("handle", "jaydev") ∈ onSubmitPayload (ProfileSchema ⟨" Dev ", "JayDev", "", "  "⟩)
    ∧ "jaydev" = jsToLower (jsTrim (⟨" Dev ", "JayDev", "", "  "⟩ : ProfileFormRaw).handle) := by
  refine ⟨rfl, ?_, by decide, ?_⟩
  · exact (C7_patch_payload_shape ⟨" Dev ", "JayDev", "", "  "⟩).2.2.2.2.1 rfl "anything"
  · exact (C7_patch_payload_shape ⟨" Dev ", "JayDev", "", "  "⟩).2.2.2.2.2.2 "jaydev"
      (by decide)

/-- C8 counterexample: the claim says a failing profile update surfaces a
non-blocking notice to the user; the catch block of onSubmit is empty, so
at this concrete failing submission the state is completely unchanged and
in particular no toast is emitted. -/
theorem C8_failure_emits_no_notice_cex :
    onSubmitComplete ⟨⟨"Dev", "jay", "my bio", "http://a.com"⟩, []⟩ none
      = ⟨⟨"Dev", "jay", "my bio", "http://a.com"⟩, []⟩
    ∧ (onSubmitComplete ⟨⟨"Dev", "jay", "my bio", "http://a.com"⟩, []⟩ none).toasts = [] :=
  ⟨rfl, rfl⟩

/-- C8 amended: a failing profile update is silently swallowed — no notice
of any kind is surfaced — while the form state is left unsaved (the
entered values are retained), so the user can retry. -/
theorem C8_failure_leaves_state (s : ProfileUiState) :
    onSubmitComplete s none = s := rfl

/-- C9: only the exact type string REPLY_ON_THREAD produces the
"commented to your thread" toast text; every other type — including types
outside the enumerated set — produces the "liked your thread" text. -/
theorem C9_toast_dispatch_on_type (ty : String) (h : Option String)
    (hne : ty ≠ "REPLY_ON_THREAD") :
    toastDescription ⟨ty, ⟨h⟩⟩ = (h.getD "Someone") ++ " liked your thread"
    ∧ toastDescription ⟨"REPLY_ON_THREAD", ⟨h⟩⟩
        = (h.getD "Someone") ++ " commented to your thread" := by
  constructor
  · simp [toastDescription, hne]
  · simp [toastDescription]

/-- Witness for C9 at a type string outside the enumerated set. -/
theorem C9_toast_dispatch_on_type_witness :
    ("SOME_FUTURE_TYPE" : String) ≠ "REPLY_ON_THREAD"
    ∧ toastDescription ⟨"SOME_FUTURE_TYPE", ⟨some "jay"⟩⟩
        = ((some "jay").getD "Someone") ++ " liked your thread"
    ∧ toastDescription ⟨"REPLY_ON_THREAD", ⟨some "jay"⟩⟩
        = ((some "jay").getD "Someone") ++ " commented to your thread" := by
  refine ⟨by decide, ?_, ?_⟩
  · exact (C9_toast_dispatch_on_type "SOME_FUTURE_TYPE" (some "jay") (by decide)).1
  · exact (C9_toast_dispatch_on_type "SOME_FUTURE_TYPE" (some "jay") (by decide)).2

/-- C10: validation trims each form field before the empty check, so a
value that trims to empty is treated as absent, its field is omitted from
the PATCH payload exactly like an empty field, and any value that survives
validation is the trimmed input. -/
theorem C10_whitespace_treated_as_absent (s : String) (raw : ProfileFormRaw) :
    (jsTrim s = "" → optionalText s = none)
    ∧ (∀ v, optionalText s = some v → v = jsTrim s)
    ∧ (jsTrim raw.displayName = "" →
        ∀ v, ("displayName", v) ∉ onSubmitPayload (ProfileSchema raw))
    ∧ (jsTrim raw.handle = "" →
        ∀ v, ("handle", v) ∉ onSubmitPayload (ProfileSchema raw))
    ∧ (jsTrim raw.bio = "" → ∀ v, ("bio", v) ∉ onSubmitPayload (ProfileSchema raw))
    ∧ (jsTrim raw.avatarUrl = "" →
        ∀ v, ("avatarUrl", v) ∉ onSubmitPayload (ProfileSchema raw))
    ∧ (jsTrim raw.displayName = "" ∧ jsTrim raw.handle = "" ∧ jsTrim raw.bio = ""
        ∧ jsTrim raw.avatarUrl = "" → onSubmitPayload (ProfileSchema raw) = []) := by
  refine ⟨?_, ?_, ?_, ?_, ?_, ?_, ?_⟩
  · exact (optionalText_eq_none_iff s).mpr
  · intro v hv
    exact (optionalText_eq_some hv).1
  · intro h v
    exact no_displayName_entry ((optionalText_eq_none_iff _).mpr h)
  · intro h v
    exact no_handle_entry ((optionalText_eq_none_iff _).mpr h)
  · intro h v
    exact no_bio_entry ((optionalText_eq_none_iff _).mpr h)
  · intro h v
    exact no_avatarUrl_entry ((optionalText_eq_none_iff _).mpr h)
  · rintro ⟨h1, h2, h3, h4⟩
    have e1 := (optionalText_eq_none_iff raw.displayName).mpr h1
    have e2 := (optionalText_eq_none_iff raw.handle).mpr h2
    have e3 := (optionalText_eq_none_iff raw.bio).mpr h3
    have e4 := (optionalText_eq_none_iff raw.avatarUrl).mpr h4
    simp [onSubmitPayload, ProfileSchema, fieldEntry, e1, e2, e3, e4]

/-- Witness for C10 at the whitespace-only raw form: every field trims to
empty and the payload is the empty record. -/
theorem C10_whitespace_treated_as_absent_witness :
    jsTrim " \t " = ""
    ∧ jsTrim (⟨" ", " \t ", "", "  "⟩ : ProfileFormRaw).displayName = ""
    ∧ jsTrim (⟨" ", " \t ", "", "  "⟩ : ProfileFormRaw).handle = ""
    ∧ jsTrim (⟨" ", " \t ", "", "  "⟩ : ProfileFormRaw).bio = ""
    ∧ jsTrim (⟨" ", " \t ", "", "  "⟩ : ProfileFormRaw).avatarUrl = ""
    ∧ optionalText " \t " = none
    ∧ ("handle", "x") ∉ onSubmitPayload (ProfileSchema ⟨" ", " \t ", "", "  "⟩)
    ∧ onSubmitPayload (ProfileSchema ⟨" ", " \t ", "", "  "⟩) = [] := by
  refine ⟨by decide, by decide, by decide, by decide, by decide, ?_, ?_, ?_⟩
  · exact (C10_whitespace_treated_as_absent " \t " ⟨" ", " \t ", "", "  "⟩).1 (by decide)
  · exact (C10_whitespace_treated_as_absent " \t " ⟨" ", " \t ", "", "  "⟩).2.2.2.1
      (by decide) "x"
  · exact (C10_whitespace_treated_as_absent " \t " ⟨" ", " \t ", "", "  "⟩).2.2.2.2.2.2
      ⟨by decide, by decide, by decide, by decide⟩

end Chatapp
